import Mathlib

/-!
Shallow embedding of the decision-and-validation pipeline of the
`ec2_resize` repository (scripts `analyze_recomend_groq.py`,
`analyze_recomend_openai.py`, `validate_request.py`).

Python strings are modelled as Lean `String`; the Python string
operations the scripts use (`split`, `startswith`, `strip`, `upper`,
list membership `in`, `list.index`) are modelled explicitly below so
that each Lean definition matches the Python operation it embeds.
CPU utilization (a Python float compared against integer literals) is
modelled as a rational number.  The external model call is abstracted
as a function argument; each pipeline run additionally counts how many
outbound oracle calls it performs, so that "the oracle is never
invoked" is expressible.
-/

namespace EC2Resize

/-- Python `s.split(sep)` for a one-character separator: splits on every
occurrence, keeping empty segments; `""` splits to `[""]`. -/
def pySplit (sep : Char) : List Char → List String
  | [] => [""]
  | c :: cs =>
    let rest := pySplit sep cs
    if c = sep then "" :: rest
    else
      match rest with
      | [] => [String.mk [c]]
      | h :: t => String.mk (c :: h.data) :: t

/-- Python `s.startswith(pre)`: prefix test on the character sequence. -/
def pyStartsWith (s pre : String) : Bool :=
  pre.data.isPrefixOf s.data

/-- Python ASCII whitespace stripped by `str.strip()`. -/
def pySpace (c : Char) : Bool :=
  c = ' ' || c = '\t' || c = '\n' || c = '\x0d' || c = '\x0b' || c = '\x0c'

/-- Python `s.strip()`: remove leading and trailing whitespace. -/
def pyStrip (s : String) : String :=
  String.mk (((s.data.dropWhile (fun c => pySpace c)).reverse.dropWhile
    (fun c => pySpace c)).reverse)

/-- Python `s.upper()` restricted to ASCII letters (the verdict tokens the
scripts compare against are ASCII). -/
def pyUpper (s : String) : String :=
  String.mk (s.data.map (fun c =>
    if 'a' ≤ c ∧ c ≤ 'z' then Char.ofNat (c.toNat - 32) else c))

/-- The fixed size vocabulary shared by all three scripts
(`sizes = ['nano', ..., '48xlarge']`). -/
def sizes : List String :=
  ["nano", "micro", "small", "medium", "large", "xlarge", "2xlarge",
   "4xlarge", "8xlarge", "16xlarge", "32xlarge", "48xlarge"]

/-- `_get_size_rank` from `analyze_recomend_groq.py` (also in
`validate_request.py`): `sizes.index(instance_type.split('.')[1])`, with
`-1` returned when the size token is absent (`IndexError`) or not in the
vocabulary (`ValueError`). -/
def _get_size_rank (instance_type : String) : Int :=
  match (pySplit '.' instance_type.data).drop 1 with
  | [] => -1
  | size :: _ =>
    match sizes.findIdx? (fun s => s == size) with
    | some i => (i : Int)
    | none => -1

/-- The local `size_rank` inside `build_instance_shortlist` of
`analyze_recomend_openai.py`: `sizes.index(size) if size in sizes else 999`.
The `IndexError` case (`t.split('.')[1]` with no dot) is uncaught in the
source and is excluded by a well-formedness guard in
`build_instance_shortlist_openai`; the `999` returned here for it is
unreachable under that guard. -/
def size_rank_openai (t : String) : Int :=
  match (pySplit '.' t.data).drop 1 with
  | [] => 999
  | size :: _ =>
    match sizes.findIdx? (fun s => s == size) with
    | some i => (i : Int)
    | none => 999

/-- The compatible-family ladder shared by both shortlist builders:
`[family]`, plus `['t4g', 't3a']` when the family starts with `t3`, plus
`['m5', 'm6i', 'm7i']` when it starts with `m6`. -/
def compatible_families (family : String) : List String :=
  let fams := [family]
  let fams := if pyStartsWith family "t3" then fams ++ ["t4g", "t3a"] else fams
  if pyStartsWith family "m6" then fams ++ ["m5", "m6i", "m7i"] else fams

/-- The sort key used by both builders:
`(compatible_families.index(t.split('.')[0]) if t.split('.')[0] in
compatible_families else 99, rank(t))`, with `rank` the variant's size
rank. -/
def shortlistKey (fams : List String) (rank : String → Int) (t : String) :
    Nat × Int :=
  let famT := ((pySplit '.' t.data).headD "")
  ((match fams.findIdx? (fun f => f == famT) with
    | some i => i
    | none => 99), rank t)

/-- Comparison of sort keys: Python tuple order (lexicographic). -/
def shortlistLE (fams : List String) (rank : String → Int) (a b : String) :
    Bool :=
  let ka := shortlistKey fams rank a
  let kb := shortlistKey fams rank b
  decide (ka.1 < kb.1 ∨ (ka.1 = kb.1 ∧ ka.2 ≤ kb.2))

/-- Shared body of both builders: filter the universe to identifiers
starting with a compatible family, then stable-sort by the key (Python
`sorted` is a stable sort, modelled by `List.mergeSort`). -/
def shortlist_core (fams : List String) (rank : String → Int)
    (valid_types : List String) : List String :=
  List.mergeSort
    (valid_types.filter (fun t => fams.any (fun fam => pyStartsWith t fam)))
    (shortlistLE fams rank)

/-- `build_instance_shortlist` from `analyze_recomend_groq.py`. -/
def build_instance_shortlist (current_instance_type : String)
    (valid_types : List String) : List String :=
  let family := (pySplit '.' current_instance_type.data).headD ""
  shortlist_core (compatible_families family) _get_size_rank valid_types

/-- Does the identifier have a size token (`t.split('.')[1]` succeeds)? -/
def hasSizeToken (t : String) : Bool :=
  !((pySplit '.' t.data).drop 1).isEmpty

/-- `build_instance_shortlist` from `analyze_recomend_openai.py`.  The
source evaluates `current_instance_type.split('.')[1]` and the sort key
evaluates `t.split('.')[1]` for every shortlist element; either raises an
uncaught `IndexError` when the dot is missing, modelled as `none`. -/
def build_instance_shortlist_openai (current_instance_type : String)
    (valid_types : List String) : Option (List String) :=
  if hasSizeToken current_instance_type then
    let family := (pySplit '.' current_instance_type.data).headD ""
    let fams := compatible_families family
    let pre := valid_types.filter (fun t => fams.any (fun fam => pyStartsWith t fam))
    if pre.all hasSizeToken then
      some (shortlist_core fams size_rank_openai valid_types)
    else none
  else none

/-- `threshold_decision` from `analyze_recomend_groq.py`:
cut points are both `10`. -/
def threshold_decision_groq (cpu : ℚ) : String :=
  if cpu < 10 then "downgrade"
  else if cpu > 10 then "upgrade"
  else "retain"

/-- `threshold_decision` from `analyze_recomend_openai.py`:
cut points `30` and `50`. -/
def threshold_decision_openai (cpu : ℚ) : String :=
  if cpu < 30 then "downgrade"
  else if cpu > 50 then "upgrade"
  else "retain"

/-- `validate_instance_type` (identical in both pipeline scripts):
Python `suggested_type in valid_types`, exact string membership. -/
def validate_instance_type (suggested_type : String)
    (valid_types : List String) : Bool :=
  valid_types.contains suggested_type

/-- The `can_downgrade` test of `analyze_recomend_groq.py` (computed both
in `__main__` and inside `ai_suggest_instance_type`):
`any(_get_size_rank(t) < _get_size_rank(current) for t in shortlist)`. -/
def can_downgrade (current_instance_type : String)
    (shortlist : List String) : Bool :=
  shortlist.any (fun t =>
    decide (_get_size_rank t < _get_size_rank current_instance_type))

/-- An external model backend, abstracted: maps the semantic inputs of
the prompt (current type, architecture, decision, shortlist) to the
model's trimmed free-text reply. -/
def Model : Type := String → String → String → List String → String

/-- `ai_suggest_instance_type` from `analyze_recomend_groq.py`.  Returns
the reply together with the number of outbound oracle calls made (the
function short-circuits to `"NO_DOWNGRADE_POSSIBLE"` with no call when a
downgrade is requested but infeasible). -/
def ai_suggest_instance_type_groq (current_instance_type arch decision :
    String) (shortlist : List String) (model : Model) : String × Nat :=
  let cd := can_downgrade current_instance_type shortlist
  if decision == "downgrade" && !cd then ("NO_DOWNGRADE_POSSIBLE", 0)
  else (model current_instance_type arch decision shortlist, 1)

/-- The `result` record both pipelines write to
`resize_recommendation.json`, restricted to the run-dependent fields,
plus the count of outbound oracle calls made during the run. -/
structure RunResult where
  decision : String
  ai_suggested_instance_type : Option String
  validated : Bool
  action_required : Bool
  oracle_calls : Nat
deriving DecidableEq

/-- The `__main__` pipeline of `analyze_recomend_groq.py` after the
external fetches: threshold decision, feasibility-guarded downgrade
branch, upgrade branch, and the final record (`"validated": validated,
"action_required": validated`; Python `suggested_type if suggested_type
else None` maps the empty string to `None`). -/
def run_groq (instance_type arch : String) (valid_instance_types :
    List String) (cpu : ℚ) (model : Model) : RunResult :=
  let decision := threshold_decision_groq cpu
  if decision == "downgrade" then
    let shortlist := build_instance_shortlist instance_type valid_instance_types
    let cd := can_downgrade instance_type shortlist
    if !cd then
      { decision := "retain", ai_suggested_instance_type := none,
        validated := false, action_required := false, oracle_calls := 0 }
    else
      let sc := ai_suggest_instance_type_groq instance_type arch "downgrade"
        shortlist model
      let validated := validate_instance_type sc.1 valid_instance_types
      { decision := "downgrade",
        ai_suggested_instance_type := if sc.1 == "" then none else some sc.1,
        validated := validated, action_required := validated,
        oracle_calls := sc.2 }
  else if decision == "upgrade" then
    let shortlist := build_instance_shortlist instance_type valid_instance_types
    let sc := ai_suggest_instance_type_groq instance_type arch "upgrade"
      shortlist model
    let validated := validate_instance_type sc.1 valid_instance_types
    { decision := "upgrade",
      ai_suggested_instance_type := if sc.1 == "" then none else some sc.1,
      validated := validated, action_required := validated,
      oracle_calls := sc.2 }
  else
    { decision := decision, ai_suggested_instance_type := none,
      validated := false, action_required := false, oracle_calls := 0 }

/-- The `__main__` pipeline of `analyze_recomend_openai.py` after the
external fetches.  The openai model call can yield no suggestion
(`None` when the response has no choices), and the shortlist builder can
raise (modelled by `none` for the whole run); there is no feasibility
guard, and the oracle is invoked for both `upgrade` and `downgrade`.
Python `None in valid_types` is `False`, so a missing suggestion is
recorded unvalidated. -/
def run_openai (instance_type arch : String) (valid_instance_types :
    List String) (cpu : ℚ)
    (model : String → String → String → List String → Option String) :
    Option RunResult :=
  let decision := threshold_decision_openai cpu
  if decision == "upgrade" || decision == "downgrade" then
    match build_instance_shortlist_openai instance_type valid_instance_types with
    | none => none
    | some shortlist =>
      let suggested := model instance_type arch decision shortlist
      let validated := match suggested with
        | some s => validate_instance_type s valid_instance_types
        | none => false
      some { decision := decision,
             ai_suggested_instance_type := match suggested with
               | some s => if s == "" then none else some s
               | none => none,
             validated := validated, action_required := validated,
             oracle_calls := 1 }
  else
    some { decision := decision, ai_suggested_instance_type := none,
           validated := false, action_required := false, oracle_calls := 0 }

/-- The verdict extraction of `validate_request.py` `__main__`:
`decision, *reason_parts = ai_response.split('.', 1)` makes `decision`
everything before the first period (the whole string when there is
none). -/
def verdict_token (ai_response : String) : String :=
  String.mk (ai_response.data.takeWhile (fun c => c ≠ '.'))

/-- `is_valid = decision.strip().upper() == 'VALID'` from
`validate_request.py` `__main__`; recorded as `is_valid_upgrade`. -/
def is_valid_upgrade (ai_response : String) : Bool :=
  pyUpper (pyStrip (verdict_token ai_response)) == "VALID"

/-! ### General lemmas about the shortlist sort order -/

/-- The key comparison is transitive. -/
theorem shortlistLE_trans (fams : List String) (rank : String → Int) :
    ∀ a b c, shortlistLE fams rank a b → shortlistLE fams rank b c →
      shortlistLE fams rank a c := by
  intro a b c hab hbc
  simp only [shortlistLE, decide_eq_true_eq] at hab hbc ⊢
  omega

/-- The key comparison is total. -/
theorem shortlistLE_total (fams : List String) (rank : String → Int) :
    ∀ a b, shortlistLE fams rank a b || shortlistLE fams rank b a := by
  intro a b
  simp only [shortlistLE, Bool.or_eq_true, decide_eq_true_eq]
  omega

/-- Membership in the built shortlist: exactly the universe members that
start with a compatible family. -/
theorem mem_shortlist_core {fams : List String} {rank : String → Int}
    {valid_types : List String} {t : String} :
    t ∈ shortlist_core fams rank valid_types ↔
      t ∈ valid_types ∧ (fams.any (fun fam => pyStartsWith t fam)) = true := by
  simp [shortlist_core, List.mem_mergeSort, List.mem_filter]

/-- The built shortlist is sorted by the key comparison. -/
theorem sorted_shortlist_core (fams : List String) (rank : String → Int)
    (valid_types : List String) :
    (shortlist_core fams rank valid_types).Pairwise
      (fun a b => shortlistLE fams rank a b = true) :=
  List.sorted_mergeSort (shortlistLE_trans fams rank)
    (shortlistLE_total fams rank) _

/-- Stability of the built shortlist: a pair with equal sort keys keeps
its relative order from the filtered input. -/
theorem pair_sublist_shortlist_core {fams : List String}
    {rank : String → Int} {valid_types : List String} {a b : String}
    (hk : shortlistKey fams rank a = shortlistKey fams rank b)
    (hs : List.Sublist [a, b] (valid_types.filter
      (fun t => fams.any (fun fam => pyStartsWith t fam)))) :
    List.Sublist [a, b] (shortlist_core fams rank valid_types) := by
  refine List.pair_sublist_mergeSort (shortlistLE_trans fams rank)
    (shortlistLE_total fams rank) ?_ hs
  show shortlistLE fams rank a b = true
  unfold shortlistLE
  rw [hk]
  simp

/-- `run_groq` always copies `validated` into `action_required`. -/
theorem run_groq_action_eq_validated (instance_type arch : String)
    (valid_instance_types : List String) (cpu : ℚ) (model : Model) :
    (run_groq instance_type arch valid_instance_types cpu model).action_required =
      (run_groq instance_type arch valid_instance_types cpu model).validated := by
  unfold run_groq
  dsimp only
  split
  · split
    · rfl
    · rfl
  · split
    · rfl
    · rfl

/-- `run_openai` always copies `validated` into `action_required`. -/
theorem run_openai_action_eq_validated (instance_type arch : String)
    (valid_instance_types : List String) (cpu : ℚ)
    (model : String → String → String → List String → Option String)
    (r : RunResult)
    (h : run_openai instance_type arch valid_instance_types cpu model = some r) :
    r.action_required = r.validated := by
  unfold run_openai at h
  dsimp only at h
  split at h
  · split at h
    · exact Option.noConfusion h
    · cases Option.some.inj h
      rfl
  · cases Option.some.inj h
    rfl

/-- The validator accepts exactly the members of the universe. -/
theorem validate_iff_mem (s : String) (U : List String) :
    validate_instance_type s U = true ↔ s ∈ U := by
  simp [validate_instance_type, List.contains_iff_exists_mem_beq]

/-! ### Claim theorems -/

/-- C1: in every ResizeRecommendation record written by either pipeline
variant, `action_required` is true if and only if `validated` is true,
so `action_required=true` is never emitted without `validated=true`. -/
theorem claim1_action_required_iff_validated :
    (∀ (instance_type arch : String) (valid_instance_types : List String)
      (cpu : ℚ) (model : Model),
      (run_groq instance_type arch valid_instance_types cpu model).action_required =
        (run_groq instance_type arch valid_instance_types cpu model).validated) ∧
    (∀ (instance_type arch : String) (valid_instance_types : List String)
      (cpu : ℚ)
      (model : String → String → String → List String → Option String)
      (r : RunResult),
      run_openai instance_type arch valid_instance_types cpu model = some r →
      r.action_required = r.validated) :=
  ⟨run_groq_action_eq_validated, run_openai_action_eq_validated⟩

unseal List.merge List.mergeSort in
/-- C1 witness: a concrete upgrade run of each variant. -/
theorem claim1_witness :
    ((run_groq "t3.micro" "x86_64" ["t3.micro"] 90
        (fun _ _ _ _ => "t3.micro")).action_required =
      (run_groq "t3.micro" "x86_64" ["t3.micro"] 90
        (fun _ _ _ _ => "t3.micro")).validated) ∧
    ((⟨"upgrade", some "t3.micro", true, true, 1⟩ : RunResult).action_required =
      (⟨"upgrade", some "t3.micro", true, true, 1⟩ : RunResult).validated) :=
  ⟨claim1_action_required_iff_validated.1 "t3.micro" "x86_64"
      ["t3.micro"] 90 (fun _ _ _ _ => "t3.micro"),
   claim1_action_required_iff_validated.2 "t3.micro" "x86_64"
      ["t3.micro"] 90 (fun _ _ _ _ => some "t3.micro") _ rfl⟩

/-- C2: `validate_instance_type` is exact (case-sensitive, unnormalized)
membership of the suggested string in the candidate universe; no fuzzy
matching or normalization is applied (an uppercased or padded variant of
a member is rejected). -/
theorem claim2_validate_exact_membership :
    (∀ (s : String) (U : List String),
      validate_instance_type s U = true ↔ s ∈ U) ∧
    validate_instance_type "T3.MICRO" ["t3.micro"] = false ∧
    validate_instance_type " t3.micro" ["t3.micro"] = false ∧
    validate_instance_type "t3.micro" ["t3.micro"] = true :=
  ⟨validate_iff_mem, rfl, rfl, rfl⟩

/-- C3: both threshold decision functions are total and deterministic,
with downgrade strictly below the low cut, upgrade strictly above the
high cut, and retain otherwise; for the configured cut points ((10,10)
for the groq variant, (30,50) for the openai variant), decide(low-ε) is
downgrade, decide(high+ε) is upgrade, and decide((low+high)/2) is
retain. -/
theorem claim3_threshold_decision :
    (∀ u : ℚ, (u < 10 → threshold_decision_groq u = "downgrade") ∧
      (u > 10 → threshold_decision_groq u = "upgrade") ∧
      (¬ u < 10 → ¬ u > 10 → threshold_decision_groq u = "retain")) ∧
    (∀ u : ℚ, threshold_decision_groq u = "downgrade" ∨
      threshold_decision_groq u = "upgrade" ∨
      threshold_decision_groq u = "retain") ∧
    (∀ ε : ℚ, 0 < ε → threshold_decision_groq (10 - ε) = "downgrade" ∧
      threshold_decision_groq (10 + ε) = "upgrade") ∧
    threshold_decision_groq ((10 + 10) / 2) = "retain" ∧
    (∀ u : ℚ, (u < 30 → threshold_decision_openai u = "downgrade") ∧
      (u > 50 → threshold_decision_openai u = "upgrade") ∧
      (¬ u < 30 → ¬ u > 50 → threshold_decision_openai u = "retain")) ∧
    (∀ u : ℚ, threshold_decision_openai u = "downgrade" ∨
      threshold_decision_openai u = "upgrade" ∨
      threshold_decision_openai u = "retain") ∧
    (∀ ε : ℚ, 0 < ε → threshold_decision_openai (30 - ε) = "downgrade" ∧
      threshold_decision_openai (50 + ε) = "upgrade") ∧
    threshold_decision_openai ((30 + 50) / 2) = "retain" := by
  refine ⟨fun u => ⟨fun h => ?_, fun h => ?_, fun h1 h2 => ?_⟩,
    fun u => ?_, fun ε hε => ⟨?_, ?_⟩, ?_,
    fun u => ⟨fun h => ?_, fun h => ?_, fun h1 h2 => ?_⟩,
    fun u => ?_, fun ε hε => ⟨?_, ?_⟩, ?_⟩ <;>
    simp only [threshold_decision_groq, threshold_decision_openai] <;>
    split_ifs <;> first | rfl | tauto | linarith

/-- C3 witness: the decision functions at concrete utilization values. -/
theorem claim3_witness :
    threshold_decision_groq 9 = "downgrade" ∧
    threshold_decision_groq 11 = "upgrade" ∧
    threshold_decision_groq (10 - 1) = "downgrade" ∧
    threshold_decision_groq (10 + 1) = "upgrade" ∧
    threshold_decision_openai 40 = "retain" ∧
    threshold_decision_openai (30 - 1) = "downgrade" :=
  ⟨(claim3_threshold_decision.1 9).1 (by norm_num),
   (claim3_threshold_decision.1 11).2.1 (by norm_num),
   (claim3_threshold_decision.2.2.1 1 (by norm_num)).1,
   (claim3_threshold_decision.2.2.1 1 (by norm_num)).2,
   (claim3_threshold_decision.2.2.2.2.1 40).2.2 (by norm_num) (by norm_num),
   (claim3_threshold_decision.2.2.2.2.2.2.1 1 (by norm_num)).1⟩

/-- C9: in the compatibility-check workflow, the verdict is the leading
token of the oracle response up to the first period; after
strip/uppercase normalization it is compared to `VALID`, and
`is_valid_upgrade` is true exactly when that normalized token is
`VALID`; any other response, including the empty response, yields
`false` (`NOT_VALID`). -/
theorem claim9_verdict_parse :
    (∀ resp : String, is_valid_upgrade resp = true ↔
      pyUpper (pyStrip (verdict_token resp)) = "VALID") ∧
    is_valid_upgrade "" = false ∧
    is_valid_upgrade "NOT_VALID. This is a downgrade in size within the same instance family." = false ∧
    is_valid_upgrade "VALID. The t2.medium offers more resources within the same instance family." = true := by
  refine ⟨fun resp => ?_, rfl, rfl, rfl⟩
  simp [is_valid_upgrade]

unseal List.merge List.mergeSort in
/-- C4 counterexample: in the openai pipeline, a run with current type
t3.micro, universe [t3.micro] and cpu 5 has threshold decision
"downgrade" while no shortlist element has a strictly lower size rank
than the current type, yet the run invokes the oracle once and records
decision "downgrade"; the decision is not changed to "retain" and the
oracle is not skipped, so the claim fails for the openai variant. -/
theorem claim4_counterexample :
    can_downgrade "t3.micro" ["t3.micro"] = false ∧
    (["t3.micro"].all fun t =>
      !decide (size_rank_openai t < size_rank_openai "t3.micro")) = true ∧
    build_instance_shortlist_openai "t3.micro" ["t3.micro"] =
      some ["t3.micro"] ∧
    threshold_decision_openai 5 = "downgrade" ∧
    run_openai "t3.micro" "x86_64" ["t3.micro"] 5
      (fun _ _ _ _ => some "t3.micro") =
      some ⟨"downgrade", some "t3.micro", true, true, 1⟩ :=
  ⟨rfl, rfl, rfl, rfl, rfl⟩

/-- C4 amended: the guarantee holds for the groq pipeline variant: when
the threshold decision is "downgrade" and no shortlist element has a
strictly lower size rank than the current type, the run records decision
"retain" and performs zero oracle calls. The openai variant has no
feasibility guard (see the counterexample). -/
theorem claim4_groq_infeasible_downgrade_retains :
    ∀ (instance_type arch : String) (valid_instance_types : List String)
      (cpu : ℚ) (model : Model),
      threshold_decision_groq cpu = "downgrade" →
      can_downgrade instance_type
        (build_instance_shortlist instance_type valid_instance_types) = false →
      run_groq instance_type arch valid_instance_types cpu model =
        ⟨"retain", none, false, false, 0⟩ := by
  intro it arch valid cpu model hdec hcd
  unfold run_groq
  rw [hdec]
  simp [hcd]

unseal List.merge List.mergeSort in
/-- C4 witness: a concrete infeasible-downgrade run of the groq
pipeline retains with zero oracle calls. -/
theorem claim4_witness :
    run_groq "t3.micro" "x86_64" ["t3.micro"] 5 (fun _ _ _ _ => "t3.zzz") =
      ⟨"retain", none, false, false, 0⟩ :=
  claim4_groq_infeasible_downgrade_retains "t3.micro" "x86_64" ["t3.micro"]
    5 (fun _ _ _ _ => "t3.zzz") rfl rfl

unseal List.merge List.mergeSort in
/-- C5: the groq variant returns the sentinel -1 for an identifier whose
size token is not in the vocabulary, and -1 is strictly smaller than
every ranked value, so the presence of the unranked identifier t3.weird
in the shortlist by itself makes the downgrade-feasibility check true
(and the pipeline then invokes the oracle), contradicting the claim that
the sentinel is never treated as smaller than a ranked value. -/
theorem claim5_unranked_sentinel_treated_as_smallest :
    _get_size_rank "t3.weird" = -1 ∧
    _get_size_rank "t3.small" = 2 ∧
    build_instance_shortlist "t3.small" ["t3.weird"] = ["t3.weird"] ∧
    can_downgrade "t3.small" ["t3.weird"] = true ∧
    (run_groq "t3.small" "x86_64" ["t3.weird"] 5
      (fun _ _ _ _ => "t3.weird")).oracle_calls = 1 ∧
    (run_groq "t3.small" "x86_64" ["t3.weird"] 5
      (fun _ _ _ _ => "t3.weird")).decision = "downgrade" :=
  ⟨rfl, rfl, rfl, rfl, rfl, rfl⟩

unseal List.merge List.mergeSort in
/-- C6 counterexample: with current type m5.large the declared
compatible-family set is exactly [m5], yet the shortlist built from the
universe [m5a.xlarge] contains m5a.xlarge, whose family m5a is outside
the declared set: the filter matches by string prefix, not by family
membership. -/
theorem claim6_counterexample :
    compatible_families "m5" = ["m5"] ∧
    (pySplit '.' "m5.large".data).headD "" = "m5" ∧
    (pySplit '.' "m5a.xlarge".data).headD "" = "m5a" ∧
    build_instance_shortlist "m5.large" ["m5a.xlarge"] = ["m5a.xlarge"] ∧
    ¬ ("m5a" ∈ compatible_families "m5") :=
  ⟨rfl, rfl, rfl, rfl, by decide⟩

/-- C6 amended: every shortlist element is drawn from the universe and
starts with (has as a string prefix) at least one member of the declared
compatible-family set of the current type; because the filter matches by
prefix rather than by family equality, the element's own family need not
be in the declared set. This holds for both builder variants. -/
theorem claim6_shortlist_prefix_membership :
    (∀ (current : String) (valid_types : List String) (t : String),
      t ∈ build_instance_shortlist current valid_types →
      t ∈ valid_types ∧
        ∃ fam ∈ compatible_families ((pySplit '.' current.data).headD ""),
          pyStartsWith t fam = true) ∧
    (∀ (current : String) (valid_types sl : List String) (t : String),
      build_instance_shortlist_openai current valid_types = some sl →
      t ∈ sl →
      t ∈ valid_types ∧
        ∃ fam ∈ compatible_families ((pySplit '.' current.data).headD ""),
          pyStartsWith t fam = true) := by
  constructor
  · intro current valid t ht
    unfold build_instance_shortlist at ht
    have h := mem_shortlist_core.mp ht
    refine ⟨h.1, ?_⟩
    simpa using h.2
  · intro current valid sl t hsl ht
    unfold build_instance_shortlist_openai at hsl
    split at hsl
    · dsimp only at hsl
      split at hsl
      · cases Option.some.inj hsl
        have h := mem_shortlist_core.mp ht
        refine ⟨h.1, ?_⟩
        simpa using h.2
      · exact Option.noConfusion hsl
    · exact Option.noConfusion hsl

unseal List.merge List.mergeSort in
/-- C6 witness: a concrete shortlist element with its prefix-compatible
family. -/
theorem claim6_witness :
    "t3a.medium" ∈ ["t3a.medium"] ∧
    ∃ fam ∈ compatible_families "t3", pyStartsWith "t3a.medium" fam = true :=
  claim6_shortlist_prefix_membership.1 "t3.micro" ["t3a.medium"]
    "t3a.medium" (by decide)

/-- C7: the Shortlist Builder is deterministic (two runs on the same
inputs yield the identical ordered output), its output is sorted by the
key (compatible-family declaration index, then size rank ascending), and
the sort is stable: two elements with equal sort keys keep their
relative order from the filtered universe. This holds for both builder
variants. -/
theorem claim7_shortlist_deterministic_sorted_stable :
    (∀ (current : String) (valid_types : List String),
      build_instance_shortlist current valid_types =
        build_instance_shortlist current valid_types) ∧
    (∀ (current : String) (valid_types : List String),
      (build_instance_shortlist current valid_types).Pairwise
        (fun a b => shortlistLE
          (compatible_families ((pySplit '.' current.data).headD ""))
          _get_size_rank a b = true)) ∧
    (∀ (current : String) (valid_types : List String) (a b : String),
      shortlistKey (compatible_families ((pySplit '.' current.data).headD ""))
          _get_size_rank a =
        shortlistKey (compatible_families ((pySplit '.' current.data).headD ""))
          _get_size_rank b →
      List.Sublist [a, b] (valid_types.filter (fun t =>
        (compatible_families ((pySplit '.' current.data).headD "")).any
          (fun fam => pyStartsWith t fam))) →
      List.Sublist [a, b] (build_instance_shortlist current valid_types)) ∧
    (∀ (current : String) (valid_types sl : List String),
      build_instance_shortlist_openai current valid_types = some sl →
      sl.Pairwise (fun a b => shortlistLE
        (compatible_families ((pySplit '.' current.data).headD ""))
        size_rank_openai a b = true)) := by
  refine ⟨fun current valid => rfl, fun current valid => ?_,
    fun current valid a b hk hs => ?_, fun current valid sl hsl => ?_⟩
  · exact sorted_shortlist_core _ _ _
  · exact pair_sublist_shortlist_core hk hs
  · unfold build_instance_shortlist_openai at hsl
    split at hsl
    · dsimp only at hsl
      split at hsl
      · cases Option.some.inj hsl
        exact sorted_shortlist_core _ _ _
      · exact Option.noConfusion hsl
    · exact Option.noConfusion hsl

unseal List.merge List.mergeSort in
/-- C7 witness: a concrete stable pair (equal keys: same family token
and size token) and a concrete sorted openai shortlist. -/
theorem claim7_witness :
    List.Sublist ["t3.small", "t3.small.x"]
      (build_instance_shortlist "t3.small" ["t3.small", "t3.small.x"]) ∧
    (["t3.micro"] : List String).Pairwise
      (fun a b => shortlistLE (compatible_families "t3")
        size_rank_openai a b = true) :=
  ⟨claim7_shortlist_deterministic_sorted_stable.2.2.1 "t3.small"
      ["t3.small", "t3.small.x"] "t3.small" "t3.small.x" rfl
      (List.Sublist.refl _),
   claim7_shortlist_deterministic_sorted_stable.2.2.2 "t3.micro"
      ["t3.micro"] ["t3.micro"] rfl⟩

/-- C8 counterexample: the groq variant uses the single cut point 10 for
both comparisons, yet at utilization exactly 10 the decision function
returns "retain", so the retain band is not empty. -/
theorem claim8_counterexample : threshold_decision_groq 10 = "retain" :=
  rfl

/-- C8 amended: with the single cut point (low = high = 10) of the groq
variant, the retain band degenerates to the single point 10, not to the
empty set: the decision is "retain" exactly when the utilization equals
10. -/
theorem claim8_retain_band_single_point :
    ∀ u : ℚ, threshold_decision_groq u = "retain" ↔ u = 10 := by
  intro u
  unfold threshold_decision_groq
  split_ifs with h1 h2
  · constructor
    · intro h
      exact absurd h (by decide)
    · intro h
      rw [h] at h1
      exact absurd h1 (by norm_num)
  · constructor
    · intro h
      exact absurd h (by decide)
    · intro h
      rw [h] at h2
      exact absurd h2 (by norm_num)
  · exact ⟨fun _ => le_antisymm (not_lt.mp h2) (not_lt.mp h1), fun _ => rfl⟩

/-- C10: validation is performed against the full candidate universe,
not against the shortlist shown to the oracle: when the oracle suggests
a string that is a member of the universe but not of the shortlist, both
pipelines still record validated = true and action_required = true. -/
theorem claim10_validation_against_universe :
    (∀ (instance_type arch : String) (valid_instance_types : List String)
      (cpu : ℚ) (s : String),
      threshold_decision_groq cpu = "upgrade" →
      s ∈ valid_instance_types →
      s ∉ build_instance_shortlist instance_type valid_instance_types →
      (run_groq instance_type arch valid_instance_types cpu
        (fun _ _ _ _ => s)).validated = true ∧
      (run_groq instance_type arch valid_instance_types cpu
        (fun _ _ _ _ => s)).action_required = true) ∧
    (∀ (instance_type arch : String) (valid_instance_types sl : List String)
      (cpu : ℚ) (s : String) (r : RunResult),
      threshold_decision_openai cpu = "upgrade" →
      s ∈ valid_instance_types →
      build_instance_shortlist_openai instance_type valid_instance_types =
        some sl →
      s ∉ sl →
      run_openai instance_type arch valid_instance_types cpu
        (fun _ _ _ _ => some s) = some r →
      r.validated = true ∧ r.action_required = true) := by
  constructor
  · intro it arch valid cpu s hdec hmem _hnot
    unfold run_groq ai_suggest_instance_type_groq
    rw [hdec]
    simp [show (("upgrade" : String) == "downgrade") = false from rfl,
      (validate_iff_mem s valid).mpr hmem]
  · intro it arch valid sl cpu s r hdec hmem hsl hnot hrun
    unfold run_openai at hrun
    rw [hdec] at hrun
    simp only [hsl] at hrun
    norm_num at hrun
    cases hrun
    exact ⟨(validate_iff_mem s valid).mpr hmem,
      (validate_iff_mem s valid).mpr hmem⟩

unseal List.merge List.mergeSort in
/-- C10 witness: the suggestion c5.large is in the universe but not in
the shortlist of t3.micro, and both runs validate it. -/
theorem claim10_witness :
    ((run_groq "t3.micro" "x86_64" ["t3.micro", "c5.large"] 50
        (fun _ _ _ _ => "c5.large")).validated = true ∧
      (run_groq "t3.micro" "x86_64" ["t3.micro", "c5.large"] 50
        (fun _ _ _ _ => "c5.large")).action_required = true) ∧
    ((⟨"upgrade", some "c5.large", true, true, 1⟩ : RunResult).validated = true ∧
      (⟨"upgrade", some "c5.large", true, true, 1⟩ : RunResult).action_required = true) :=
  ⟨claim10_validation_against_universe.1 "t3.micro" "x86_64"
      ["t3.micro", "c5.large"] 50 "c5.large" rfl (by decide) (by decide),
   claim10_validation_against_universe.2 "t3.micro" "x86_64"
      ["t3.micro", "c5.large"] ["t3.micro"] 90 "c5.large"
      ⟨"upgrade", some "c5.large", true, true, 1⟩ rfl (by decide) rfl
      (by decide) rfl⟩

end EC2Resize
